import Mathlib

/-!
Verification development for the Granola-sync repository
(`main.py` and `token_manager.py`).

The Python code is shallowly embedded:
* JSON values (Python dicts / lists / strings / ints / bools / None) are the
  inductive type `JValue`;
* Python exceptions are modelled with `Except PyErr`;
* `datetime` values are modelled as integer seconds; `datetime.isoformat` is
  modelled as the canonical decimal string of that integer (its exact text is
  immaterial to every property below, only that it is stored);
* the network call in `refresh_access_token` is a parameter: the caller passes
  either the decoded JSON token response (a record, as the code destructures
  it) or a request error (connection failure, or the `HTTPError` raised by
  `raise_for_status` on a non-2xx status — both are `RequestException`s and
  are caught by the code).
-/

/-- Python exception classes that the embedded code can raise. -/
inductive PyErr where
  /-- Python `AttributeError`, e.g. calling `.get` on a non-dict. -/
  | attributeError
  /-- Python `TypeError`, e.g. iterating a non-iterable or multiplying a string by a non-int. -/
  | typeError
  /-- Recursion fuel ran out (never happens for the fuel the code passes). -/
  | fuel
deriving DecidableEq, Repr

/-- A JSON value, as Python represents it after `json.loads` /
`response.json()`: `None`, `bool`, `int`, `str`, `list`, `dict`
(a dict is a key-ordered association list with distinct keys). -/
inductive JValue where
  | null : JValue
  | bool (b : Bool) : JValue
  | num (n : Int) : JValue
  | str (s : String) : JValue
  | arr (elems : List JValue) : JValue
  | obj (fields : List (String × JValue)) : JValue
deriving Repr

/-- Structural equality test on `JValue` (Python `==` on JSON values). -/
def JValue.beq : JValue → JValue → Bool
  | .null, .null => true
  | .bool a, .bool b => a = b
  | .num a, .num b => a = b
  | .str a, .str b => a = b
  | .arr xs, .arr ys => beqList xs ys
  | .obj xs, .obj ys => beqFields xs ys
  | _, _ => false
where
  beqList : List JValue → List JValue → Bool
    | [], [] => true
    | x :: xs, y :: ys => x.beq y && beqList xs ys
    | _, _ => false
  beqFields : List (String × JValue) → List (String × JValue) → Bool
    | [], [] => true
    | (k, v) :: xs, (l, w) :: ys => k = l && v.beq w && beqFields xs ys
    | _, _ => false

instance : BEq JValue := ⟨JValue.beq⟩

/-- Python truthiness of a JSON value (`bool(v)`). -/
def JValue.truthy : JValue → Bool
  | .null => false
  | .bool b => b
  | .num n => n != 0
  | .str s => s ≠ ""
  | .arr xs => !xs.isEmpty
  | .obj kvs => !kvs.isEmpty

/-- Python `isinstance(v, dict)`. -/
def JValue.isObj : JValue → Bool
  | .obj _ => true
  | _ => false

/-- Python `isinstance(v, list)`. -/
def JValue.isArr : JValue → Bool
  | .arr _ => true
  | _ => false

/-- First-match association lookup (Python dict keys are distinct, so this is
dict lookup). -/
def assocLookup : List (String × JValue) → String → Option JValue
  | [], _ => none
  | (k, v) :: rest, key => if k = key then some v else assocLookup rest key

/-- Python `k in v` for a dict `v` (membership tests keys). -/
def JValue.hasKey (v : JValue) (k : String) : Bool :=
  match v with
  | .obj kvs => (assocLookup kvs k).isSome
  | _ => false

/-- Python `v.get(key, dflt)`: dict lookup with default; raises
`AttributeError` when `v` is not a dict. -/
def pyGet (v : JValue) (key : String) (dflt : JValue) : Except PyErr JValue :=
  match v with
  | .obj kvs => .ok ((assocLookup kvs key).getD dflt)
  | _ => .error .attributeError

/-- Python iteration `for x in v`: lists yield elements, strings yield
one-character strings, dicts yield keys; other values raise `TypeError`. -/
def pyIter (v : JValue) : Except PyErr (List JValue) :=
  match v with
  | .arr xs => .ok xs
  | .str s => .ok (s.toList.map fun c => .str (String.singleton c))
  | .obj kvs => .ok (kvs.map fun kv => .str kv.1)
  | _ => .error .typeError

/-- Python `repr()` of a JSON value (string escaping corner cases are not
modelled; no claim depends on them). -/
def pyRepr : JValue → String
  | .null => "None"
  | .bool b => if b then "True" else "False"
  | .num n => toString n
  | .str s => "\x27" ++ s ++ "\x27"
  | .arr xs => "[" ++ String.intercalate ", " (reprList xs) ++ "]"
  | .obj kvs => "\x7b" ++ String.intercalate ", " (reprFields kvs) ++ "\x7d"
where
  reprList : List JValue → List String
    | [] => []
    | x :: xs => pyRepr x :: reprList xs
  reprFields : List (String × JValue) → List String
    | [] => []
    | (k, v) :: kvs => ("\x27" ++ k ++ "\x27: " ++ pyRepr v) :: reprFields kvs

/-- Python `str()` of a JSON value, as used by f-string interpolation. -/
def pyStr : JValue → String
  | .str s => s
  | v => pyRepr v

/-- Whitespace characters removed by Python `str.strip()` (the ASCII ones;
no claim exercises the Unicode spaces). -/
def isPySpace (c : Char) : Bool :=
  c = ' ' || c = '\t' || c = '\n' || c = '\x0d' || c = '\x0b' || c = '\x0c'

/-- Python `s.strip()`: drop whitespace from both ends. -/
def pyStrip (s : String) : String :=
  String.mk (((s.toList.dropWhile isPySpace).reverse.dropWhile isPySpace).reverse)

/-- Python `'#' * level` inside the heading f-string: repetition for ints
(`bool` is an int subtype; `n ≤ 0` yields `""`), `TypeError` otherwise. -/
def hashRepeat : JValue → Except PyErr String
  | .num n => .ok (String.mk (List.replicate n.toNat '#'))
  | .bool b => .ok (if b then "#" else "")
  | _ => .error .typeError

/-- Left-to-right effectful map over a Python loop or consumed generator:
the first raised exception propagates, later elements are not visited. -/
def mapExc (f : JValue → Except PyErr String) : List JValue → Except PyErr (List String)
  | [] => .ok []
  | x :: xs => do
    let y ← f x
    let ys ← mapExc f xs
    pure (y :: ys)

/-- Python `''.join(process(child) for child in children)` where each produced value
must be a `str` (`TypeError` otherwise, interleaved with processing order as
the generator is consumed). -/
def joinProcessed (f : JValue → Except PyErr JValue) (children : List JValue) :
    Except PyErr String := do
  let ss ← mapExc
    (fun c => do
      match ← f c with
      | .str s => pure s
      | _ => Except.error PyErr.typeError)
    children
  pure (String.join ss)

/-- The inner `process_node` of `convert_prosemirror_to_markdown`
(main.py lines 111-139), with a recursion-fuel first argument (the wrapper
passes ample fuel; running out yields the distinguished `PyErr.fuel`, which
no real execution reaches).  A non-dict node renders as `""`; `heading`,
`paragraph`, `bulletList` and `text` are dispatched on the `type` field and
every other type falls through to concatenating its rendered children.
The `text` branch returns the `text` field unchanged even when it is not a
string, so the result type is `JValue`. -/
def process_node : Nat → JValue → Except PyErr JValue
  | 0, _ => .error .fuel
  | fuel + 1, node =>
    match node with
    | .obj _ => do
      let node_type ← pyGet node "type" (.str "")
      let content ← pyGet node "content" (.arr [])
      let text ← pyGet node "text" (.str "")
      if node_type == .str "heading" then do
        let attrs ← pyGet node "attrs" (.obj [])
        let level ← pyGet attrs "level" (.num 1)
        let children ← pyIter content
        let heading_text ← joinProcessed (process_node fuel) children
        let hashes ← hashRepeat level
        pure (.str (hashes ++ " " ++ heading_text ++ "\n\n"))
      else if node_type == .str "paragraph" then do
        let children ← pyIter content
        let para_text ← joinProcessed (process_node fuel) children
        pure (.str (para_text ++ "\n\n"))
      else if node_type == .str "bulletList" then do
        let children ← pyIter content
        let items ← children.foldlM
          (fun (acc : List String) item => do
            let t ← pyGet item "type" .null
            if t == .str "listItem" then do
              let item_children ← pyIter (← pyGet item "content" (.arr []))
              let item_content ← joinProcessed (process_node fuel) item_children
              pure (acc ++ ["- " ++ pyStrip item_content])
            else
              pure acc)
          []
        pure (.str (String.intercalate "\n" items ++ "\n\n"))
      else if node_type == .str "text" then
        pure text
      else do
        let children ← pyIter content
        let s ← joinProcessed (process_node fuel) children
        pure (.str s)
    | _ => pure (.str "")

/-- A computable size bound on a JSON value, used as recursion fuel: it
strictly exceeds the tree depth (and the length of any string whose
characters iteration could visit), so `process_node` never exhausts it. -/
def JValue.fuel : JValue → Nat
  | .null => 1
  | .bool _ => 1
  | .num _ => 1
  | .str s => s.length + 2
  | .arr xs => 1 + fuelL xs
  | .obj kvs => 1 + fuelF kvs
where
  fuelL : List JValue → Nat
    | [] => 1
    | x :: xs => x.fuel + fuelL xs
  fuelF : List (String × JValue) → Nat
    | [] => 1
    | (k, v) :: kvs => k.length + 2 + v.fuel + fuelF kvs

/-- The function `convert_prosemirror_to_markdown` (main.py lines 102-141): a falsy,
non-dict, or `content`-less input short-circuits to `""`; otherwise the tree
is rendered by `process_node` (called here with fuel `content.fuel`, far
above the recursion depth any input can need, since every recursive call
strictly descends the finite tree). -/
def convert_prosemirror_to_markdown (content : JValue) : Except PyErr JValue :=
  if !(content.truthy && content.isObj && content.hasKey "content") then
    .ok (.str "")
  else
    process_node content.fuel content

/-- Python `start_timestamp.replace('Z', '+00:00')`: the needle is the single
character `Z`, so this is exactly per-character substitution. -/
def replaceZ (s : String) : String :=
  String.join (s.toList.map fun c => if c = 'Z' then "+00:00" else String.singleton c)

/-- Decimal value of an ASCII digit. -/
def digitVal? (c : Char) : Option Nat :=
  if c.isDigit then some (c.toNat - 48) else none

/-- Read exactly two digits. -/
def take2d : List Char → Option (Nat × List Char)
  | a :: b :: rest => do
    let x ← digitVal? a
    let y ← digitVal? b
    pure (10 * x + y, rest)
  | _ => none

/-- Read exactly four digits. -/
def take4d (cs : List Char) : Option (Nat × List Char) := do
  let (hi, r) ← take2d cs
  let (lo, r) ← take2d r
  pure (100 * hi + lo, r)

/-- Consume an expected literal character. -/
def expectChar (c : Char) : List Char → Option (List Char)
  | d :: rest => if d = c then some rest else none
  | [] => none

/-- Gregorian leap-year rule, as `datetime` validates dates. -/
def isLeapYear (y : Nat) : Bool :=
  y % 4 = 0 && (y % 100 ≠ 0 || y % 400 = 0)

/-- Days in a month, as `datetime` validates dates. -/
def daysInMonth (y m : Nat) : Nat :=
  if m = 2 then (if isLeapYear y then 29 else 28)
  else if m = 4 || m = 6 || m = 9 || m = 11 then 30
  else 31

/-- Consume an optional fractional-seconds part (`.` plus 1-6 digits). -/
def dropFraction : List Char → Option (List Char)
  | '.' :: rest =>
    let digits := rest.takeWhile Char.isDigit
    if 1 ≤ digits.length ∧ digits.length ≤ 6 then
      some (rest.drop digits.length)
    else none
  | cs => some cs

/-- Consume a trailing UTC-offset part (`±HH:MM` with optional `:SS`), or
nothing; anything else fails the parse. -/
def parseOffset : List Char → Option Unit
  | [] => some ()
  | c :: rest =>
    if c = '+' ∨ c = '-' then do
      let (oh, r) ← take2d rest
      let r ← expectChar ':' r
      let (om, r) ← take2d r
      if oh ≥ 24 ∨ om ≥ 60 then none
      else
        match r with
        | [] => some ()
        | ':' :: r2 => do
          let (os, r3) ← take2d r2
          if os ≥ 60 ∨ ¬r3.isEmpty then none else some ()
        | _ => none
    else none

/-- Parse the time-of-day part `HH[:MM[:SS[.ffffff]]]` followed by an
optional offset. -/
def parseTimePart (cs : List Char) : Option (Nat × Nat × Nat) := do
  let (h, r) ← take2d cs
  if h ≥ 24 then none
  else
    match r with
    | ':' :: r1 => do
      let (m, r2) ← take2d r1
      if m ≥ 60 then none
      else
        match r2 with
        | ':' :: r3 => do
          let (s, r4) ← take2d r3
          if s ≥ 60 then none
          else do
            let r5 ← dropFraction r4
            let _ ← parseOffset r5
            pure (h, m, s)
        | _ => do
          let _ ← parseOffset r2
          pure (h, m, 0)
    | _ => do
      let _ ← parseOffset r
      pure (h, 0, 0)

/-- Python `datetime.fromisoformat`, modelled on the extended ISO-8601 grammar
`YYYY-MM-DD[{T or space}HH[:MM[:SS[.ffffff]]][±HH:MM[:SS]]]` — the only shape
the repository's data uses.  Returns the wall-clock `(hour, minute, second)`
(the fields `strftime('%H:%M:%S')` reads; no timezone conversion happens in
the code), or `none` on a parse failure (`ValueError`). -/
def fromisoformat (s : String) : Option (Nat × Nat × Nat) := do
  let cs := s.toList
  let (y, r) ← take4d cs
  let r ← expectChar '-' r
  let (mo, r) ← take2d r
  let r ← expectChar '-' r
  let (d, r) ← take2d r
  if ¬(1 ≤ mo ∧ mo ≤ 12) then none
  else if ¬(1 ≤ d ∧ d ≤ daysInMonth y mo) then none
  else
    match r with
    | [] => pure (0, 0, 0)
    | sep :: rest =>
      if sep = 'T' ∨ sep = ' ' then parseTimePart rest else none

/-- Two-digit zero-padded decimal, as `strftime` renders each field. -/
def pad2 (n : Nat) : String :=
  if n < 10 then "0" ++ toString n else toString n

/-- Python `dt.strftime('%H:%M:%S')`. -/
def strftimeHMS (t : Nat × Nat × Nat) : String :=
  pad2 t.1 ++ ":" ++ pad2 t.2.1 ++ ":" ++ pad2 t.2.2

/-- The body of the per-utterance loop of `convert_transcript_to_markdown`
(main.py lines 158-173): reads `source`, `text`, `start_timestamp` with
`.get` (raising `AttributeError` on a non-dict utterance), labels the
speaker, renders the timestamp inside a bare `try/except` that swallows
every failure (non-string timestamp, unparseable string), and emits the
f-string block. -/
def utterance_block (utterance : JValue) : Except PyErr String := do
  let source ← pyGet utterance "source" (.str "unknown")
  let text ← pyGet utterance "text" (.str "")
  let start_timestamp ← pyGet utterance "start_timestamp" (.str "")
  let speaker := if source == .str "microphone" then "Microphone" else "System"
  let timestamp_str :=
    if start_timestamp.truthy then
      match start_timestamp with
      | .str s =>
        match fromisoformat (replaceZ s) with
        | some hms => "[" ++ strftimeHMS hms ++ "]"
        | none => ""
      | _ => ""
    else ""
  pure ("**" ++ speaker ++ "** " ++ timestamp_str ++ "\n\n" ++ pyStr text ++ "\n\n")

/-- The fixed placeholder document returned for an empty or non-list
transcript. -/
def transcriptPlaceholder : String := "# Transcript\n\nNo transcript content available.\n"

/-- The function `convert_transcript_to_markdown` (main.py lines 143-175): placeholder
for falsy-or-non-list input, otherwise the `# Transcript` heading followed
by one block per utterance in order. -/
def convert_transcript_to_markdown (transcript_data : JValue) : Except PyErr String :=
  match transcript_data with
  | .arr (u :: us) => do
    let blocks ← mapExc utterance_block (u :: us)
    pure (String.join ("# Transcript\n\n" :: blocks))
  | _ => .ok transcriptPlaceholder

/-!
## Token manager (`token_manager.py`)

Times are integer seconds.  The in-memory manager state holds the four
attributes set by `_load_config`; token strings are `Option String`
(`none` = Python `None`) and the expiry is `Option Int` (a `datetime`).
-/

/-- The `TokenManager` attribute state (token_manager.py lines 13-16). -/
structure TMState where
  refresh_token : Option String
  client_id : Option String
  access_token : Option String
  token_expiry : Option Int
deriving DecidableEq, Repr

/-- The persisted credential store: `none` when `config.json` does not
exist, otherwise the parsed JSON object. -/
abbrev Store := Option (List (String × JValue))

/-- Python truthiness of an optional string attribute
(`None` and `""` are falsy). -/
def optTruthy : Option String → Bool
  | none => false
  | some s => s ≠ ""

/-- Python dict assignment `d[k] = v`: replace in place when the key exists,
append otherwise. -/
def dictSet : List (String × JValue) → String → JValue → List (String × JValue)
  | [], k, v => [(k, v)]
  | (k0, v0) :: rest, k, v =>
    if k0 = k then (k0, v) :: rest else (k0, v0) :: dictSet rest k v

/-- JSON serialization of an optional string attribute. -/
def jsonOfOptStr : Option String → JValue
  | none => .null
  | some s => .str s

/-- Python `self.token_expiry.isoformat() if self.token_expiry else None`;
the `datetime` is modelled as integer seconds and its `isoformat` as the
canonical decimal string of that integer (every claim below depends only on
which value is stored, never on the text of this serialization). -/
def expiryJson : Option Int → JValue
  | none => .null
  | some t => .str (toString t)

/-- The method `_save_config` (token_manager.py lines 41-59): load the existing file
contents when the file exists (else start from `{}`), overwrite
`refresh_token`, `access_token` and `token_expiry` unconditionally and
`client_id` only when truthy, and write the result back.  (The enclosing
`try/except` only matters for an unreadable existing file, a case outside
every claim, so the store is modelled as already-parsed JSON.) -/
def save_config (st : TMState) (store : Store) : Store :=
  let config_data := store.getD []
  let config_data := dictSet config_data "refresh_token" (jsonOfOptStr st.refresh_token)
  let config_data :=
    if optTruthy st.client_id then
      dictSet config_data "client_id" (jsonOfOptStr st.client_id)
    else config_data
  let config_data := dictSet config_data "access_token" (jsonOfOptStr st.access_token)
  let config_data := dictSet config_data "token_expiry" (expiryJson st.token_expiry)
  some config_data

/-- The method `is_token_expired` (token_manager.py lines 61-66): true when the access
token is falsy or no expiry is recorded, else true exactly when
`now ≥ token_expiry - 5 minutes`. -/
def is_token_expired (st : TMState) (now : Int) : Bool :=
  if ¬optTruthy st.access_token then true
  else
    match st.token_expiry with
    | none => true
    | some te => decide (now ≥ te - 300)

/-- A failure of the token-endpoint request, as caught by the code: every
one of these is a `requests.exceptions.RequestException`
(`raise_for_status` on a non-2xx status, a connection failure, or an
undecodable JSON body). -/
inductive ReqErr where
  | httpError (status : Nat)
  | connectionError
  | jsonDecodeError
deriving DecidableEq, Repr

/-- The decoded JSON body of a 2xx token-endpoint response, holding the
three fields the code reads with `.get`.  `expires_in` is an integer when
present (the only shape the endpoint sends; a non-numeric value would make
`timedelta(seconds=...)` raise, which no claim exercises). -/
structure TokenResponse where
  access_token : Option String
  refresh_token : Option String
  expires_in : Option Int
deriving DecidableEq, Repr

/-- The observable outcome of one `refresh_access_token` call: its return
value, the manager state and store after it, and whether the token endpoint
was contacted at all. -/
structure RefreshResult where
  success : Bool
  state : TMState
  store : Store
  networkCalled : Bool
deriving Repr

/-- The method `refresh_access_token` (token_manager.py lines 68-113).  The network
interaction is the parameter `resp`; `now` is `datetime.now()` at the
moment the expiry is computed.  Missing (falsy) `refresh_token` or
`client_id` returns `False` before any request; a request error is caught
and returns `False`; on success the access token is stored as received
(possibly `None`), a truthy response `refresh_token` overwrites the stored
one, the expiry becomes `now + expires_in` (default 3600), the state is
persisted via `save_config`, and `True` is returned. -/
def refresh_access_token (st : TMState) (store : Store)
    (resp : Except ReqErr TokenResponse) (now : Int) : RefreshResult :=
  if ¬optTruthy st.refresh_token then ⟨false, st, store, false⟩
  else if ¬optTruthy st.client_id then ⟨false, st, store, false⟩
  else
    match resp with
    | .error _ => ⟨false, st, store, true⟩
    | .ok result =>
      let st := { st with access_token := result.access_token }
      let st :=
        if optTruthy result.refresh_token then
          { st with refresh_token := result.refresh_token }
        else st
      let expires_in := result.expires_in.getD 3600
      let st := { st with token_expiry := some (now + expires_in) }
      ⟨true, st, save_config st store, true⟩

/-- The observable outcome of one `get_valid_token` call: its return value,
the resulting state and store, and how many times it invoked
`refresh_access_token`. -/
structure GVTResult where
  token : Option String
  state : TMState
  store : Store
  refreshCalls : Nat
deriving Repr

/-- The method `get_valid_token` (token_manager.py lines 115-121): return the stored
token directly when it is not expired; otherwise refresh once, returning
`None` on refresh failure and the (new) stored token on success. -/
def get_valid_token (st : TMState) (store : Store)
    (resp : Except ReqErr TokenResponse) (now : Int) : GVTResult :=
  if is_token_expired st now then
    let r := refresh_access_token st store resp now
    if r.success then ⟨r.state.access_token, r.state, r.store, 1⟩
    else ⟨none, r.state, r.store, 1⟩
  else ⟨st.access_token, st, store, 0⟩

/-- The rendering of one utterance as the specification describes it
(spec §4.3): label the speaker `"Microphone"` exactly when
`source == "microphone"` and `"System"` for every other source, parse the
ISO-8601 `start_timestamp` (a trailing literal `Z` standing for UTC) and
render it as `[HH:MM:SS]`, omitting the bracket when the timestamp is
absent or unparseable, and emit `**Speaker** [timestamp]\n\ntext\n\n`.
Claim C7 compares `utterance_block` against this description. -/
def spec_block (u : JValue) : String :=
  match u with
  | .obj fields =>
    let source := (assocLookup fields "source").getD (.str "unknown")
    let text := (assocLookup fields "text").getD (.str "")
    let start_timestamp := (assocLookup fields "start_timestamp").getD (.str "")
    let speaker := if source == .str "microphone" then "Microphone" else "System"
    let timestamp_str :=
      if start_timestamp.truthy then
        match start_timestamp with
        | .str s =>
          match fromisoformat (replaceZ s) with
          | some hms => "[" ++ strftimeHMS hms ++ "]"
          | none => ""
        | _ => ""
      else ""
    "**" ++ speaker ++ "** " ++ timestamp_str ++ "\n\n" ++ pyStr text ++ "\n\n"
  | _ => ""

/-!
## Helper lemmas
-/

/-- On a dict utterance, `utterance_block` succeeds and produces exactly the
spec-side rendering. -/
theorem utterance_block_obj (fields : List (String × JValue)) :
    utterance_block (.obj fields) = .ok (spec_block (.obj fields)) := rfl

/-- Mapping `utterance_block` over dict utterances succeeds and produces the
spec-side renderings. -/
theorem mapExc_utterance_block (us : List JValue) (h : ∀ u ∈ us, u.isObj = true) :
    mapExc utterance_block us = .ok (us.map spec_block) := by
  induction us with
  | nil => rfl
  | cons u us ih =>
    have hu : u.isObj = true := h u (List.mem_cons_self u us)
    obtain ⟨fields, rfl⟩ : ∃ f, u = .obj f := by
      cases u <;> simp [JValue.isObj] at hu ⊢
    have ih' := ih (fun v hv => h v (List.mem_cons_of_mem _ hv))
    simp only [mapExc, utterance_block_obj, ih']
    rfl

/-- Setting a key makes lookup of that key return the new value. -/
theorem assocLookup_dictSet_self (kvs : List (String × JValue)) (k : String) (v : JValue) :
    assocLookup (dictSet kvs k v) k = some v := by
  induction kvs with
  | nil => simp [dictSet, assocLookup]
  | cons kv rest ih =>
    obtain ⟨k0, v0⟩ := kv
    by_cases h : k0 = k <;> simp [dictSet, assocLookup, h, ih]

/-- Setting a key leaves lookups of every other key unchanged. -/
theorem assocLookup_dictSet_ne (kvs : List (String × JValue)) (k k' : String) (v : JValue)
    (h : k' ≠ k) :
    assocLookup (dictSet kvs k v) k' = assocLookup kvs k' := by
  have hne : ¬(k = k') := fun hh => h hh.symm
  induction kvs with
  | nil =>
    simp only [dictSet, assocLookup]
    rw [if_neg hne]
  | cons kv rest ih =>
    obtain ⟨k0, v0⟩ := kv
    simp only [dictSet]
    by_cases h0 : k0 = k
    · rw [if_pos h0]
      subst h0
      simp only [assocLookup]
      rw [if_neg hne, if_neg hne]
    · rw [if_neg h0]
      simp only [assocLookup]
      by_cases h1 : k0 = k'
      · rw [if_pos h1, if_pos h1]
      · rw [if_neg h1, if_neg h1]
        exact ih

/-!
## Claim theorems
-/

/-- C2: `is_token_expired` returns true whenever the access token or the
expiry is absent (a falsy — missing or empty — access token counts as "no
access token"), and otherwise returns true exactly when the current time is
at or past `token_expiry` minus the 5-minute (300 s) buffer; in particular
it is true at `expiry = now`, true at `expiry = now + 240`, and false at
`expiry = now + 600`. -/
theorem claim_C2 (st : TMState) (now : Int) :
    ((optTruthy st.access_token = false ∨ st.token_expiry = none) →
      is_token_expired st now = true)
  ∧ (∀ a te, st.access_token = some a → a ≠ "" → st.token_expiry = some te →
      (is_token_expired st now = true ↔ now ≥ te - 300))
  ∧ is_token_expired { st with access_token := some "tok", token_expiry := some now } now = true
  ∧ is_token_expired { st with access_token := some "tok", token_expiry := some (now + 240) } now = true
  ∧ is_token_expired { st with access_token := some "tok", token_expiry := some (now + 600) } now = false := by
  refine ⟨?_, ?_, ?_, ?_, ?_⟩
  · rintro (h | h) <;> simp [is_token_expired, h]
  · intro a te ha hne hte
    simp [is_token_expired, ha, hte, optTruthy, hne]
  · simp [is_token_expired, optTruthy]
  · simp [is_token_expired, optTruthy]
  · simp [is_token_expired, optTruthy]

/-- Witness for C2 at concrete inputs. -/
theorem claim_C2_witness :
    is_token_expired ⟨none, none, none, some 1000⟩ 0 = true
  ∧ (is_token_expired ⟨none, none, some "t", some 400⟩ 0 = true ↔ (0 : Int) ≥ 400 - 300) :=
  ⟨(claim_C2 ⟨none, none, none, some 1000⟩ 0).1 (Or.inl rfl),
   (claim_C2 ⟨none, none, some "t", some 400⟩ 0).2.1 "t" 400 rfl (by decide) rfl⟩

/-- C4: `refresh_access_token` with a falsy `refresh_token` or `client_id`
returns `False` with the state and store untouched and without contacting
the token endpoint. -/
theorem claim_C4 (st : TMState) (store : Store) (resp : Except ReqErr TokenResponse)
    (now : Int) (h : optTruthy st.refresh_token = false ∨ optTruthy st.client_id = false) :
    refresh_access_token st store resp now = ⟨false, st, store, false⟩ := by
  rcases h with h | h
  · simp [refresh_access_token, h]
  · by_cases h1 : optTruthy st.refresh_token = true <;>
      simp [refresh_access_token, h, h1]

/-- Witness for C4 at a concrete input. -/
theorem claim_C4_witness :
    refresh_access_token ⟨none, some "cid", none, none⟩ none (.error .connectionError) 0
      = ⟨false, ⟨none, some "cid", none, none⟩, none, false⟩ :=
  claim_C4 ⟨none, some "cid", none, none⟩ none (.error .connectionError) 0 (Or.inl rfl)

/-- C5: when the token is not expired, `get_valid_token` returns the stored
access token without refreshing (zero refresh invocations, state and store
untouched); when it is expired it invokes `refresh_access_token` exactly
once, and a failed refresh yields `None` rather than an exception (the
embedding is total: every failure is a returned value). -/
theorem claim_C5 (st : TMState) (store : Store) (resp : Except ReqErr TokenResponse)
    (now : Int) :
    (is_token_expired st now = false →
      get_valid_token st store resp now = ⟨st.access_token, st, store, 0⟩)
  ∧ (is_token_expired st now = true →
      (get_valid_token st store resp now).refreshCalls = 1
      ∧ ((refresh_access_token st store resp now).success = false →
          (get_valid_token st store resp now).token = none)) := by
  refine ⟨?_, ?_⟩
  · intro h
    simp [get_valid_token, h]
  · intro h
    refine ⟨?_, ?_⟩
    · simp only [get_valid_token, h, if_true]
      split <;> rfl
    · intro hf
      simp [get_valid_token, h, hf]

/-- Witness for C5 at concrete inputs (one non-expired case, one failing
refresh). -/
theorem claim_C5_witness :
    get_valid_token ⟨some "r", some "c", some "tok", some 1000⟩ none (.error .connectionError) 0
      = ⟨some "tok", ⟨some "r", some "c", some "tok", some 1000⟩, none, 0⟩
  ∧ (get_valid_token ⟨some "r", some "c", none, none⟩ none (.error (.httpError 401)) 0).token = none :=
  ⟨(claim_C5 ⟨some "r", some "c", some "tok", some 1000⟩ none (.error .connectionError) 0).1 (by decide),
   ((claim_C5 ⟨some "r", some "c", none, none⟩ none (.error (.httpError 401)) 0).2 rfl).2 rfl⟩

/-- C8: rendering a `heading` node with `attrs.level = 2` and text
`"Title"` yields exactly `"## Title\n\n"`, and rendering a `bulletList`
with two `listItem` children containing text `"A"` and `"B"` yields exactly
`"- A\n- B\n\n"`. -/
theorem claim_C8 :
    convert_prosemirror_to_markdown
      (.obj [("type", .str "heading"), ("attrs", .obj [("level", .num 2)]),
             ("content", .arr [.obj [("type", .str "text"), ("text", .str "Title")]])])
      = .ok (.str "## Title\n\n")
  ∧ convert_prosemirror_to_markdown
      (.obj [("type", .str "bulletList"),
             ("content", .arr [
               .obj [("type", .str "listItem"),
                     ("content", .arr [.obj [("type", .str "text"), ("text", .str "A")]])],
               .obj [("type", .str "listItem"),
                     ("content", .arr [.obj [("type", .str "text"), ("text", .str "B")]])]])])
      = .ok (.str "- A\n- B\n\n") :=
  ⟨rfl, rfl⟩

/-- Normal form of a refresh whose preconditions hold and whose request
succeeds: the final state overwrites the access token, conditionally
rotates the refresh token, sets the expiry, and is saved. -/
theorem refresh_access_token_ok (st : TMState) (store : Store) (r : TokenResponse)
    (now : Int) (hrt : optTruthy st.refresh_token = true)
    (hcid : optTruthy st.client_id = true) :
    refresh_access_token st store (.ok r) now =
      ⟨true,
        ⟨if optTruthy r.refresh_token = true then r.refresh_token else st.refresh_token,
         st.client_id, r.access_token, some (now + r.expires_in.getD 3600)⟩,
        save_config
          ⟨if optTruthy r.refresh_token = true then r.refresh_token else st.refresh_token,
           st.client_id, r.access_token, some (now + r.expires_in.getD 3600)⟩ store,
        true⟩ := by
  by_cases hb : optTruthy r.refresh_token = true <;>
    simp [refresh_access_token, hrt, hcid, hb]

/-- C1: a successful `refresh_access_token` returns `True`, stores exactly
the response's `access_token`, sets the expiry to `now` plus the
server-reported `expires_in` (3600 when unspecified), overwrites the stored
`refresh_token` exactly when the response carries a (truthy) new one, and
persists the updated state to the store before returning. -/
theorem claim_C1 (st : TMState) (store : Store) (r : TokenResponse) (now : Int)
    (hrt : optTruthy st.refresh_token = true) (hcid : optTruthy st.client_id = true) :
    (refresh_access_token st store (.ok r) now).success = true
  ∧ (refresh_access_token st store (.ok r) now).state.access_token = r.access_token
  ∧ (refresh_access_token st store (.ok r) now).state.token_expiry
      = some (now + r.expires_in.getD 3600)
  ∧ (r.expires_in = none →
      (refresh_access_token st store (.ok r) now).state.token_expiry = some (now + 3600))
  ∧ (optTruthy r.refresh_token = true →
      (refresh_access_token st store (.ok r) now).state.refresh_token = r.refresh_token)
  ∧ (optTruthy r.refresh_token = false →
      (refresh_access_token st store (.ok r) now).state.refresh_token = st.refresh_token)
  ∧ (refresh_access_token st store (.ok r) now).store
      = save_config (refresh_access_token st store (.ok r) now).state store := by
  rw [refresh_access_token_ok st store r now hrt hcid]
  refine ⟨rfl, rfl, rfl, ?_, ?_, ?_, rfl⟩
  · intro h
    simp [h]
  · intro h
    simp [h]
  · intro h
    simp [h]

/-- Witness for C1 at a concrete input with a rotated refresh token. -/
theorem claim_C1_witness :
    (refresh_access_token ⟨some "old", some "cid", none, none⟩ (some [])
        (.ok ⟨some "acc", some "new", some 100⟩) 50).state.refresh_token = some "new" :=
  (claim_C1 ⟨some "old", some "cid", none, none⟩ (some [])
      ⟨some "acc", some "new", some 100⟩ 50 rfl rfl).2.2.2.2.1 rfl

/-- C3: a `refresh_access_token` call fails (returns `False`) exactly when
a credential is missing or the token-endpoint request errored (non-2xx,
connection failure, undecodable body — all caught, none re-raised), and
every failing call leaves the manager state and the store untouched. -/
theorem claim_C3 (st : TMState) (store : Store) (resp : Except ReqErr TokenResponse)
    (now : Int) :
    ((refresh_access_token st store resp now).success = false ↔
      (optTruthy st.refresh_token = false ∨ optTruthy st.client_id = false
        ∨ ∃ e, resp = .error e))
  ∧ ((refresh_access_token st store resp now).success = false →
      (refresh_access_token st store resp now).state = st
      ∧ (refresh_access_token st store resp now).store = store) := by
  by_cases h1 : optTruthy st.refresh_token = true <;>
    by_cases h2 : optTruthy st.client_id = true <;>
    cases resp <;>
    simp [refresh_access_token, h1, h2]

/-- Witness for C3 at a concrete input (auth error response). -/
theorem claim_C3_witness :
    (refresh_access_token ⟨some "r", some "c", some "a", some 9⟩ none
        (.error (.httpError 401)) 0).state = ⟨some "r", some "c", some "a", some 9⟩
  ∧ (refresh_access_token ⟨some "r", some "c", some "a", some 9⟩ none
        (.error (.httpError 401)) 0).store = none :=
  (claim_C3 ⟨some "r", some "c", some "a", some 9⟩ none (.error (.httpError 401)) 0).2
    (((claim_C3 ⟨some "r", some "c", some "a", some 9⟩ none
        (.error (.httpError 401)) 0).1).2 (Or.inr (Or.inr ⟨.httpError 401, rfl⟩)))

/-- What `save_config` writes: the three unconditional fields, `client_id`
when truthy, and every other key carried over from the previous store
contents unchanged. -/
theorem save_config_lookup (st : TMState) (store : Store)
    (out : List (String × JValue)) (hout : save_config st store = some out) :
    assocLookup out "refresh_token" = some (jsonOfOptStr st.refresh_token)
  ∧ assocLookup out "access_token" = some (jsonOfOptStr st.access_token)
  ∧ assocLookup out "token_expiry" = some (expiryJson st.token_expiry)
  ∧ (optTruthy st.client_id = true →
      assocLookup out "client_id" = some (jsonOfOptStr st.client_id))
  ∧ ∀ k, k ≠ "refresh_token" → k ≠ "client_id" → k ≠ "access_token" →
      k ≠ "token_expiry" → assocLookup out k = assocLookup (store.getD []) k := by
  cases hc : optTruthy st.client_id with
  | true =>
    simp only [save_config, hc, if_true, Option.some.injEq] at hout
    subst hout
    refine ⟨?_, ?_, ?_, ?_, ?_⟩
    · rw [assocLookup_dictSet_ne _ _ _ _ (by decide),
          assocLookup_dictSet_ne _ _ _ _ (by decide),
          assocLookup_dictSet_ne _ _ _ _ (by decide),
          assocLookup_dictSet_self]
    · rw [assocLookup_dictSet_ne _ _ _ _ (by decide), assocLookup_dictSet_self]
    · rw [assocLookup_dictSet_self]
    · intro _
      rw [assocLookup_dictSet_ne _ _ _ _ (by decide),
          assocLookup_dictSet_ne _ _ _ _ (by decide),
          assocLookup_dictSet_self]
    · intro k h1 h2 h3 h4
      rw [assocLookup_dictSet_ne _ _ _ _ h4, assocLookup_dictSet_ne _ _ _ _ h3,
          assocLookup_dictSet_ne _ _ _ _ h2, assocLookup_dictSet_ne _ _ _ _ h1]
  | false =>
    simp only [save_config, hc, Bool.false_eq_true, if_false, Option.some.injEq] at hout
    subst hout
    refine ⟨?_, ?_, ?_, ?_, ?_⟩
    · rw [assocLookup_dictSet_ne _ _ _ _ (by decide),
          assocLookup_dictSet_ne _ _ _ _ (by decide),
          assocLookup_dictSet_self]
    · rw [assocLookup_dictSet_ne _ _ _ _ (by decide), assocLookup_dictSet_self]
    · rw [assocLookup_dictSet_self]
    · intro h
      simp [hc] at h
    · intro k h1 h2 h3 h4
      rw [assocLookup_dictSet_ne _ _ _ _ h4, assocLookup_dictSet_ne _ _ _ _ h3,
          assocLookup_dictSet_ne _ _ _ _ h1]

/-- C10: a 2xx token response whose body lacks `access_token` is still
treated as a success — `refresh_access_token` returns `True`, stores the
access token as `None`, and persists `access_token = null` to the store;
the missing field is not detected. -/
theorem claim_C10 (st : TMState) (store : Store) (r : TokenResponse) (now : Int)
    (hrt : optTruthy st.refresh_token = true) (hcid : optTruthy st.client_id = true)
    (hacc : r.access_token = none) :
    (refresh_access_token st store (.ok r) now).success = true
  ∧ (refresh_access_token st store (.ok r) now).state.access_token = none
  ∧ ∀ out, (refresh_access_token st store (.ok r) now).store = some out →
      assocLookup out "access_token" = some .null := by
  rw [refresh_access_token_ok st store r now hrt hcid]
  refine ⟨rfl, hacc, ?_⟩
  intro out hout
  have H := save_config_lookup _ _ _ hout
  rw [H.2.1, hacc]
  rfl

/-- Witness for C10 at a concrete input. -/
theorem claim_C10_witness :
    (refresh_access_token ⟨some "r", some "c", some "a", some 5⟩ none
        (.ok ⟨none, none, none⟩) 0).success = true
  ∧ (refresh_access_token ⟨some "r", some "c", some "a", some 5⟩ none
        (.ok ⟨none, none, none⟩) 0).state.access_token = none :=
  ⟨(claim_C10 ⟨some "r", some "c", some "a", some 5⟩ none ⟨none, none, none⟩ 0
      rfl rfl rfl).1,
   (claim_C10 ⟨some "r", some "c", some "a", some 5⟩ none ⟨none, none, none⟩ 0
      rfl rfl rfl).2.1⟩

/-- C9 (counterexample): after a successful refresh against a store that
held an extra field `"extra"`, the written store still contains that field
— the save merges into the loaded file contents instead of replacing them,
so the store does not contain exactly the four credential fields. -/
theorem claim_C9_counterexample :
    (refresh_access_token ⟨some "r", some "c", none, none⟩
        (some [("extra", .str "x")]) (.ok ⟨some "a", none, none⟩) 0).store
      = some [("extra", JValue.str "x"), ("refresh_token", JValue.str "r"),
              ("client_id", JValue.str "c"), ("access_token", JValue.str "a"),
              ("token_expiry", JValue.str "3600")]
  ∧ assocLookup [("extra", JValue.str "x"), ("refresh_token", JValue.str "r"),
        ("client_id", JValue.str "c"), ("access_token", JValue.str "a"),
        ("token_expiry", JValue.str "3600")] "extra" = some (JValue.str "x") :=
  ⟨rfl, rfl⟩

/-- C9 (amended): after every successful refresh the store is written by
loading the existing contents and overwriting `refresh_token`,
`access_token` and `token_expiry` unconditionally and `client_id` when
truthy; every other previously stored field is carried over unchanged
rather than dropped; when the file was absent the result contains exactly
those four fields. -/
theorem claim_C9 (st : TMState) (kvs : List (String × JValue)) (r : TokenResponse)
    (now : Int) (hrt : optTruthy st.refresh_token = true)
    (hcid : optTruthy st.client_id = true) :
    (∀ out, (refresh_access_token st (some kvs) (.ok r) now).store = some out →
      (∀ k, k ≠ "refresh_token" → k ≠ "client_id" → k ≠ "access_token" →
          k ≠ "token_expiry" → assocLookup out k = assocLookup kvs k)
      ∧ (assocLookup out "refresh_token").isSome = true
      ∧ (assocLookup out "client_id").isSome = true
      ∧ (assocLookup out "access_token").isSome = true
      ∧ (assocLookup out "token_expiry").isSome = true)
  ∧ (∀ out, (refresh_access_token st none (.ok r) now).store = some out →
      ∀ k, (assocLookup out k).isSome = true ↔
        (k = "refresh_token" ∨ k = "client_id" ∨ k = "access_token"
          ∨ k = "token_expiry")) := by
  constructor
  · intro out hout
    rw [refresh_access_token_ok st (some kvs) r now hrt hcid] at hout
    have H := save_config_lookup _ _ _ hout
    refine ⟨fun k h1 h2 h3 h4 => H.2.2.2.2 k h1 h2 h3 h4, ?_, ?_, ?_, ?_⟩
    · rw [H.1]
      rfl
    · rw [H.2.2.2.1 hcid]
      rfl
    · rw [H.2.1]
      rfl
    · rw [H.2.2.1]
      rfl
  · intro out hout
    rw [refresh_access_token_ok st none r now hrt hcid] at hout
    have H := save_config_lookup _ _ _ hout
    intro k
    constructor
    · intro hk
      by_contra hnk
      push_neg at hnk
      obtain ⟨n1, n2, n3, n4⟩ := hnk
      rw [H.2.2.2.2 k n1 n2 n3 n4] at hk
      simp [assocLookup] at hk
    · rintro (rfl | rfl | rfl | rfl)
      · rw [H.1]
        rfl
      · rw [H.2.2.2.1 hcid]
        rfl
      · rw [H.2.1]
        rfl
      · rw [H.2.2.1]
        rfl

/-- Witness for C9 at a concrete input: the extra field of the previous
store contents is carried over unchanged. -/
theorem claim_C9_witness :
    assocLookup [("extra", JValue.str "x"), ("refresh_token", JValue.str "r"),
        ("client_id", JValue.str "c"), ("access_token", JValue.str "a"),
        ("token_expiry", JValue.str "3600")] "extra"
      = assocLookup [("extra", JValue.str "x")] "extra" :=
  (((claim_C9 ⟨some "r", some "c", none, none⟩ [("extra", .str "x")]
      ⟨some "a", none, none⟩ 0 rfl rfl).1 _ rfl).1) "extra"
    (by decide) (by decide) (by decide) (by decide)

/-- C6 (counterexample): the converters can raise — a non-dict item inside
a `bulletList`'s content makes the document converter raise
`AttributeError` (at `item.get`), and a non-dict utterance makes the
transcript converter raise `AttributeError` (at `utterance.get`) — so
neither "never raises" nor "malformed input yields the empty string /
placeholder" holds for every input value. -/
theorem claim_C6_counterexample :
    convert_prosemirror_to_markdown
      (.obj [("type", .str "doc"),
             ("content", .arr [.obj [("type", .str "bulletList"),
                                     ("content", .arr [.str "x"])]])])
      = .error .attributeError
  ∧ convert_transcript_to_markdown (.arr [.num 1]) = .error .attributeError :=
  ⟨rfl, rfl⟩

/-- C6 (amended): a top-level malformed input never raises — a falsy,
non-dict, or `content`-less document input yields the empty string, and a
falsy or non-list transcript input yields the placeholder document — but a
malformed value nested inside an otherwise processed input (a non-dict item
inside a `bulletList`'s content, or a non-dict utterance inside a
transcript list) raises an exception rather than being dropped or yielding
empty output (the orchestrator isolates such per-document failures). -/
theorem claim_C6 :
    (∀ v : JValue, (v.truthy = false ∨ v.isObj = false ∨ v.hasKey "content" = false) →
      convert_prosemirror_to_markdown v = .ok (.str ""))
  ∧ (∀ v : JValue, (v.truthy = false ∨ v.isArr = false) →
      convert_transcript_to_markdown v = .ok transcriptPlaceholder)
  ∧ convert_prosemirror_to_markdown
      (.obj [("type", .str "doc"),
             ("content", .arr [.obj [("type", .str "bulletList"),
                                     ("content", .arr [.str "x"])]])])
      = .error .attributeError
  ∧ convert_transcript_to_markdown (.arr [.num 1]) = .error .attributeError := by
  refine ⟨?_, ?_, rfl, rfl⟩
  · intro v h
    rcases h with h | h | h <;> simp [convert_prosemirror_to_markdown, h]
  · intro v h
    cases v <;> try rfl
    rename_i elems
    cases elems with
    | nil => rfl
    | cons x xs =>
      rcases h with h | h <;> simp [JValue.truthy, JValue.isArr] at h

/-- Witness for C6 at concrete top-level-malformed inputs. -/
theorem claim_C6_witness :
    convert_prosemirror_to_markdown (.num 0) = .ok (.str "")
  ∧ convert_transcript_to_markdown (.num 0) = .ok transcriptPlaceholder :=
  ⟨claim_C6.1 (.num 0) (Or.inl rfl), claim_C6.2.1 (.num 0) (Or.inl rfl)⟩

/-- C7: the transcript converter returns the fixed placeholder for an empty
or non-list input; on a list of (dict) utterances it emits, in input order,
one block per utterance rendered exactly as the spec describes
(`spec_block`: speaker `"Microphone"` iff `source == "microphone"`, else
`"System"`; parsed timestamp as `[HH:MM:SS]`, bracket omitted when absent
or unparseable); and the single-utterance example renders to a string
containing `"**Microphone** [10:00:00]"` and `"hi"`. -/
theorem claim_C7 :
    (∀ v : JValue, (v.truthy = false ∨ v.isArr = false) →
      convert_transcript_to_markdown v = .ok transcriptPlaceholder)
  ∧ (∀ u us, (∀ w ∈ u :: us, w.isObj = true) →
      convert_transcript_to_markdown (.arr (u :: us)) =
        .ok (String.join ("# Transcript\n\n" :: (u :: us).map spec_block)))
  ∧ convert_transcript_to_markdown
      (.arr [.obj [("source", .str "microphone"), ("text", .str "hi"),
                   ("start_timestamp", .str "2024-01-01T10:00:00Z")]])
      = .ok ("# Transcript\n\n" ++ "**Microphone** [10:00:00]" ++ "\n\nhi\n\n") := by
  refine ⟨?_, ?_, rfl⟩
  · intro v h
    cases v <;> try rfl
    rename_i elems
    cases elems with
    | nil => rfl
    | cons x xs =>
      rcases h with h | h <;> simp [JValue.truthy, JValue.isArr] at h
  · intro u us h
    simp only [convert_transcript_to_markdown, mapExc_utterance_block _ h]
    rfl

/-- Witness for C7 at concrete inputs: the empty transcript and a
one-utterance transcript with a `"system"` source. -/
theorem claim_C7_witness :
    convert_transcript_to_markdown (.arr []) = .ok transcriptPlaceholder
  ∧ convert_transcript_to_markdown
      (.arr [.obj [("source", .str "system"), ("text", .str "yo")]])
      = .ok (String.join ("# Transcript\n\n" ::
          [JValue.obj [("source", .str "system"), ("text", .str "yo")]].map spec_block)) :=
  ⟨claim_C7.1 (.arr []) (Or.inl rfl),
   claim_C7.2.1 (.obj [("source", .str "system"), ("text", .str "yo")]) []
     (by
       intro w hw
       rw [List.mem_singleton] at hw
       subst hw
       rfl)⟩
